import Mathlib

/-!
Verification of the batch-hashing dispatcher in `src/batch_hasher.rs` of the
neptune repository, against its natural-language specification.

Shallow embedding conventions:
* Rust `Result<T, Error>` becomes `Except Error T`.
* A Rust `panic!` / `unimplemented!` (process abort) is modelled by the
  `PanicOr` outcome type: an aborting computation returns
  `PanicOr.panicked msg` and a completing one returns `PanicOr.ok v`.
* The Rust `&mut self` receiver of `BatchHasher::hash` is modelled by
  explicit state passing: `hash` returns the result together with the new
  backend state.
* Type-level arity (`A: Arity<Fr>`) becomes a natural number `A`, and a
  `GenericArray<Fr, A>` becomes a list of field elements of length `A`.
* The crate compiles this file only with the `gpu` cargo feature enabled
  (with the feature off, the `match` in `new_with_strength` would have no
  arm for `BatcherType::GPU`).  That leaves two build configurations,
  distinguished by `target_os = "macos"`:
  - non-macOS: the `Batcher::GPU` variant holds a real `GPUBatchHasher`;
  - macOS: the `Batcher::GPU` variant holds the `NoGPUBatchHasher` stub and
    requesting a GPU backend panics during construction.
  The `Batcher` inductive is parameterised by the type `G` of the GPU
  variant's payload, mirroring the `cfg`-substitution, and each build
  configuration gets its own construction function.

The dispatcher itself (`BatcherType`, `Batcher`, `t`, `new`,
`new_with_strength`, the `BatchHasher` impl for `Batcher`, and
`NoGPUBatchHasher`) is translated directly from `src/batch_hasher.rs`.
The collaborators that live outside the given sources (`crate::error::Error`,
`crate::poseidon::SimplePoseidonBatchHasher`, `crate::gpu::GPUBatchHasher`,
`crate::gpu::GPUSelector`, `crate::cl`, `Strength`, `DEFAULT_STRENGTH`) are
modelled from the specification and marked as such in their doc comments.
-/

/-- Modelled from the spec: the error taxonomy of §7 of the spec
(`crate::error::Error` is not among the given sources).  Tagged outcome
distinguishing backend-construction failure, capability-unavailable-on-
platform, batch-size violation, and computation failure. -/
inductive Error : Type where
  | BackendConstructionFailed : Error
  | UnsupportedBackend : Error
  | BatchTooLarge : Error
  | ComputationFailed : Error
deriving DecidableEq, Repr

/-- Modelled from the spec: the `Strength` enumeration (§3: "standard vs.
hardened" hash-parameterization level; `crate::Strength` is not among the
given sources). -/
inductive Strength : Type where
  | Standard : Strength
  | Strengthened : Strength
deriving DecidableEq, Repr

/-- Modelled from the spec: the crate-level default strength
(`crate::DEFAULT_STRENGTH` is not among the given sources; §4.3 calls it
`DefaultStrength`). -/
def DEFAULT_STRENGTH : Strength := Strength.Standard

/-- Modelled from the spec: an opaque device-selector value identifying a
specific accelerator device (`crate::gpu::GPUSelector` is not among the
given sources; §6: validity checked only when resolving to a context). -/
structure GPUSelector : Type where
  device_id : Nat
deriving DecidableEq, Repr

/-- The backend selector, from `src/batch_hasher.rs`:
`enum BatcherType { CustomGPU(GPUSelector), GPU, CPU }`. -/
inductive BatcherType : Type where
  | CustomGPU : GPUSelector → BatcherType
  | GPU : BatcherType
  | CPU : BatcherType
deriving DecidableEq, Repr

/-- The BLS12-381 scalar field element `Fr`.  Only value semantics
(equality, copying) are used by the dispatcher, so it is embedded as a
bare natural number standing for an abstract scalar. -/
abbrev Fr : Type := Nat

/-- A preimage: a fixed-length ordered sequence of field elements
(`GenericArray<Fr, A>`), length equal to the arity `A`. -/
def Preimage (A : Nat) : Type := { l : List Fr // l.length = A }

instance (A : Nat) : DecidableEq (Preimage A) := fun a b =>
  decidable_of_iff (a.val = b.val) Subtype.ext_iff.symm

/-- Outcome of running a Rust computation that may abort the process:
either it completes with a value, or it panics with a message.  A returned
`Error` is NOT a panic: a fallible completing computation has type
`PanicOr (Except Error T)`. -/
inductive PanicOr (α : Type) : Type where
  | ok : α → PanicOr α
  | panicked : String → PanicOr α

/-- Functorial action on the completing outcome. -/
def PanicOr.map {α β : Type} (f : α → β) : PanicOr α → PanicOr β
  | PanicOr.ok a => PanicOr.ok (f a)
  | PanicOr.panicked msg => PanicOr.panicked msg

/-- `true` iff the computation completed (did not panic). -/
def PanicOr.isOk {α : Type} : PanicOr α → Bool
  | PanicOr.ok _ => true
  | PanicOr.panicked _ => false

/-- The uniform hashing capability, from the crate's `BatchHasher<A>` trait
(declared outside the given sources; its two operations `hash` and
`max_batch_size` are exactly those used by `src/batch_hasher.rs`).
`hash` takes `&mut self` in Rust, so here it returns the new backend state
along with the result; `unimplemented!` bodies are represented through the
`PanicOr` codomain. -/
class BatchHasher (A : outParam Nat) (B : Type) : Type where
  hash : B → List (Preimage A) → PanicOr (Except Error (List Fr) × B)
  max_batch_size : B → PanicOr Nat

/-- Modelled from the spec: the software (CPU) hash engine
(`crate::poseidon::SimplePoseidonBatchHasher` is not among the given
sources).  §4.2/§6: it is constructed from a strength and a batch cap and
is purely functional; the per-preimage hash function itself is an external
primitive, stored here as the field `hashOne`. -/
structure SimplePoseidonBatchHasher (A : Nat) : Type where
  strength : Strength
  max_batch_size : Nat
  hashOne : Preimage A → Fr

/-- Modelled from the spec: constructor of the software engine, §6:
`new_with_strength(strength, max_batch_size) -> Result<Engine, Error>`.
`H` is the external Poseidon primitive mapping a strength and a preimage to
a field element (out of scope for this core, §1). -/
def SimplePoseidonBatchHasher.new_with_strength {A : Nat}
    (H : Strength → Preimage A → Fr) (strength : Strength)
    (max_batch_size : Nat) : Except Error (SimplePoseidonBatchHasher A) :=
  Except.ok { strength := strength, max_batch_size := max_batch_size,
              hashOne := H strength }

/-- Modelled from the spec: the software engine's capability instance.
§4.2: for batch length > max_batch_size it fails with `BatchTooLarge`
(backend's responsibility to enforce); otherwise it returns one output
element per input preimage, in order, purely functionally. -/
instance (A : Nat) : BatchHasher A (SimplePoseidonBatchHasher A) where
  hash h preimages :=
    if preimages.length > h.max_batch_size then
      PanicOr.ok (Except.error Error.BatchTooLarge, h)
    else
      PanicOr.ok (Except.ok (preimages.map h.hashOne), h)
  max_batch_size h := PanicOr.ok h.max_batch_size

/-- Modelled from the spec: an accelerator runtime context (§6; the
`crate::cl` module is not among the given sources).  Only its identity
matters to the dispatcher. -/
structure FutharkContext : Type where
  device_id : Nat
deriving DecidableEq, Repr

/-- Modelled from the spec: the context-acquisition interface of the
`crate::cl` module (§6: `default_context() -> Result<Context, Error>` and
`context_for(device_selector) -> Result<Context, Error>`).  Packaged as a
record so theorems can quantify over every possible platform outcome. -/
structure ClEnv : Type where
  default_futhark_context : Except Error FutharkContext
  futhark_context : GPUSelector → Except Error FutharkContext

/-- Modelled from the spec: the accelerator backend
(`crate::gpu::GPUBatchHasher` is not among the given sources).  §2/§6: it
owns a device/runtime context and is constructed from a context, a
strength, and a batch cap.  §8 (cross-backend consistency): it computes
the same per-preimage function as the software backend, stored as
`hashOne`. -/
structure GPUBatchHasher (A : Nat) : Type where
  ctx : FutharkContext
  strength : Strength
  max_batch_size : Nat
  hashOne : Preimage A → Fr

/-- Modelled from the spec: constructor of the accelerator backend, §6:
takes a context, strength and batch cap and returns a `Result`. -/
def GPUBatchHasher.new_with_strength {A : Nat}
    (H : Strength → Preimage A → Fr) (ctx : FutharkContext)
    (strength : Strength) (max_batch_size : Nat) :
    Except Error (GPUBatchHasher A) :=
  Except.ok { ctx := ctx, strength := strength,
              max_batch_size := max_batch_size, hashOne := H strength }

/-- Modelled from the spec: the accelerator backend's capability instance,
with the same contract as the software one (§4.2, §8 cross-backend
consistency). -/
instance (A : Nat) : BatchHasher A (GPUBatchHasher A) where
  hash h preimages :=
    if preimages.length > h.max_batch_size then
      PanicOr.ok (Except.error Error.BatchTooLarge, h)
    else
      PanicOr.ok (Except.ok (preimages.map h.hashOne), h)
  max_batch_size h := PanicOr.ok h.max_batch_size

/-- The unavailable-backend stub, from `src/batch_hasher.rs`:
`pub struct NoGPUBatchHasher<A>(PhantomData<A>)`. -/
structure NoGPUBatchHasher (A : Nat) : Type where
  phantom : Unit

/-- The stub's capability impl, from `src/batch_hasher.rs` lines 103-114:
both `hash` and `max_batch_size` are `unimplemented!()`, i.e. they panic
unconditionally. -/
instance (A : Nat) : BatchHasher A (NoGPUBatchHasher A) where
  hash _ _ := PanicOr.panicked "not implemented"
  max_batch_size _ := PanicOr.panicked "not implemented"

/-- The dispatcher, from `src/batch_hasher.rs`:
`enum Batcher<A> { GPU(...), CPU(SimplePoseidonBatchHasher<A>) }`.
The payload type of the `GPU` variant depends on the build configuration
(`GPUBatchHasher A` off macOS, `NoGPUBatchHasher A` on macOS), so it is a
parameter `G`. -/
inductive Batcher (G : Type) (A : Nat) : Type where
  | GPU : G → Batcher G A
  | CPU : SimplePoseidonBatchHasher A → Batcher G A

/-- `Batcher::t`, from `src/batch_hasher.rs` lines 37-42: reports the
variant of the constructed backend.  Note the codomain values actually
produced: `BatcherType::GPU` or `BatcherType::CPU`, never
`BatcherType::CustomGPU`. -/
def Batcher.t {G : Type} {A : Nat} : Batcher G A → BatcherType
  | Batcher.GPU _ => BatcherType.GPU
  | Batcher.CPU _ => BatcherType.CPU

/-- `Batcher::new_with_strength` as compiled for the macOS build
(`target_os = "macos"`, feature `gpu`), from `src/batch_hasher.rs` lines
48-77: the `GPU` and `CustomGPU` arms are
`panic!("GPU unimplemented on macos")`; the `CPU` arm builds the software
engine, propagating its construction error with `?`. -/
def Batcher.new_with_strength_macos {A : Nat}
    (H : Strength → Preimage A → Fr) (strength : Strength)
    (t : BatcherType) (max_batch_size : Nat) :
    PanicOr (Except Error (Batcher (NoGPUBatchHasher A) A)) :=
  match t with
  | BatcherType.GPU => PanicOr.panicked "GPU unimplemented on macos"
  | BatcherType.CustomGPU _ => PanicOr.panicked "GPU unimplemented on macos"
  | BatcherType.CPU =>
    match SimplePoseidonBatchHasher.new_with_strength H strength max_batch_size with
    | Except.ok h => PanicOr.ok (Except.ok (Batcher.CPU h))
    | Except.error e => PanicOr.ok (Except.error e)

/-- `Batcher::new_with_strength` as compiled for a non-macOS build with
feature `gpu`, from `src/batch_hasher.rs` lines 48-77: `GPU` acquires the
default Futhark context, `CustomGPU(selector)` acquires the context for
that selector, each then builds a `GPUBatchHasher` (all failures
propagated with `?`); both wrap the result in the `Batcher::GPU` variant.
`CPU` builds the software engine.  `env` supplies the platform's
context-acquisition outcomes (spec-modelled `crate::cl`). -/
def Batcher.new_with_strength_other {A : Nat} (env : ClEnv)
    (H : Strength → Preimage A → Fr) (strength : Strength)
    (t : BatcherType) (max_batch_size : Nat) :
    PanicOr (Except Error (Batcher (GPUBatchHasher A) A)) :=
  match t with
  | BatcherType.GPU =>
    PanicOr.ok
      (match env.default_futhark_context with
       | Except.error e => Except.error e
       | Except.ok ctx =>
         match GPUBatchHasher.new_with_strength H ctx strength max_batch_size with
         | Except.error e => Except.error e
         | Except.ok g => Except.ok (Batcher.GPU g))
  | BatcherType.CustomGPU selector =>
    PanicOr.ok
      (match env.futhark_context selector with
       | Except.error e => Except.error e
       | Except.ok ctx =>
         match GPUBatchHasher.new_with_strength H ctx strength max_batch_size with
         | Except.error e => Except.error e
         | Except.ok g => Except.ok (Batcher.GPU g))
  | BatcherType.CPU =>
    match SimplePoseidonBatchHasher.new_with_strength H strength max_batch_size with
    | Except.error e => PanicOr.ok (Except.error e)
    | Except.ok h => PanicOr.ok (Except.ok (Batcher.CPU h))

/-- `Batcher::new` (macOS build), from `src/batch_hasher.rs` lines 44-46:
`Self::new_with_strength(DEFAULT_STRENGTH, t, max_batch_size)`. -/
def Batcher.new_macos {A : Nat} (H : Strength → Preimage A → Fr)
    (t : BatcherType) (max_batch_size : Nat) :
    PanicOr (Except Error (Batcher (NoGPUBatchHasher A) A)) :=
  Batcher.new_with_strength_macos H DEFAULT_STRENGTH t max_batch_size

/-- `Batcher::new` (non-macOS build), from `src/batch_hasher.rs` lines
44-46: `Self::new_with_strength(DEFAULT_STRENGTH, t, max_batch_size)`. -/
def Batcher.new_other {A : Nat} (env : ClEnv)
    (H : Strength → Preimage A → Fr) (t : BatcherType)
    (max_batch_size : Nat) :
    PanicOr (Except Error (Batcher (GPUBatchHasher A) A)) :=
  Batcher.new_with_strength_other env H DEFAULT_STRENGTH t max_batch_size

/-- `impl BatchHasher<A> for Batcher<A>`, from `src/batch_hasher.rs` lines
80-97: both operations match on the variant and forward to the owned
backend; `hash` takes `&mut self`, so the (possibly updated) owned backend
stays inside the same variant. -/
instance (G : Type) (A : Nat) [BatchHasher A G] :
    BatchHasher A (Batcher G A) where
  hash b preimages :=
    match b with
    | Batcher.GPU batcher =>
      (BatchHasher.hash batcher preimages).map
        (fun rg => (rg.1, Batcher.GPU rg.2))
    | Batcher.CPU batcher =>
      (BatchHasher.hash batcher preimages).map
        (fun rc => (rc.1, Batcher.CPU rc.2))
  max_batch_size b :=
    match b with
    | Batcher.GPU batcher => BatchHasher.max_batch_size batcher
    | Batcher.CPU batcher => BatchHasher.max_batch_size batcher

/-! ### Unfolding helper lemmas

Small `rfl` lemmas exposing the capability instances to `simp`. -/

/-- The software engine's `hash`, unfolded. -/
@[simp]
theorem SimplePoseidonBatchHasher.simple_hash_unfold {A : Nat}
    (h : SimplePoseidonBatchHasher A) (p : List (Preimage A)) :
    BatchHasher.hash h p =
      (if p.length > h.max_batch_size then
        PanicOr.ok (Except.error Error.BatchTooLarge, h)
      else
        PanicOr.ok (Except.ok (p.map h.hashOne), h)) := rfl

/-- The software engine's `max_batch_size`, unfolded. -/
@[simp]
theorem SimplePoseidonBatchHasher.simple_max_unfold {A : Nat}
    (h : SimplePoseidonBatchHasher A) :
    BatchHasher.max_batch_size h = PanicOr.ok h.max_batch_size := rfl

/-- The accelerator backend's `hash`, unfolded. -/
@[simp]
theorem GPUBatchHasher.gpu_hash_unfold {A : Nat}
    (g : GPUBatchHasher A) (p : List (Preimage A)) :
    BatchHasher.hash g p =
      (if p.length > g.max_batch_size then
        PanicOr.ok (Except.error Error.BatchTooLarge, g)
      else
        PanicOr.ok (Except.ok (p.map g.hashOne), g)) := rfl

/-- The accelerator backend's `max_batch_size`, unfolded. -/
@[simp]
theorem GPUBatchHasher.gpu_max_unfold {A : Nat} (g : GPUBatchHasher A) :
    BatchHasher.max_batch_size g = PanicOr.ok g.max_batch_size := rfl

/-- The stub's `hash`, unfolded: it panics. -/
@[simp]
theorem NoGPUBatchHasher.nogpu_hash_unfold {A : Nat}
    (b : NoGPUBatchHasher A) (p : List (Preimage A)) :
    BatchHasher.hash b p = PanicOr.panicked "not implemented" := rfl

/-- The stub's `max_batch_size`, unfolded: it panics. -/
@[simp]
theorem NoGPUBatchHasher.nogpu_max_unfold {A : Nat} (b : NoGPUBatchHasher A) :
    BatchHasher.max_batch_size b = PanicOr.panicked "not implemented" := rfl

/-- The dispatcher's `hash` on the `GPU` variant forwards to the payload. -/
@[simp]
theorem Batcher.hash_GPU {G : Type} {A : Nat} [BatchHasher A G]
    (g : G) (p : List (Preimage A)) :
    BatchHasher.hash (Batcher.GPU g : Batcher G A) p =
      (BatchHasher.hash g p).map (fun rg => (rg.1, Batcher.GPU rg.2)) := rfl

/-- The dispatcher's `hash` on the `CPU` variant forwards to the payload. -/
@[simp]
theorem Batcher.hash_CPU {G : Type} {A : Nat} [BatchHasher A G]
    (c : SimplePoseidonBatchHasher A) (p : List (Preimage A)) :
    BatchHasher.hash (Batcher.CPU c : Batcher G A) p =
      (BatchHasher.hash c p).map (fun rc => (rc.1, Batcher.CPU rc.2)) := rfl

/-- The dispatcher's `max_batch_size` on the `GPU` variant forwards. -/
@[simp]
theorem Batcher.max_batch_size_GPU {G : Type} {A : Nat} [BatchHasher A G]
    (g : G) :
    BatchHasher.max_batch_size (Batcher.GPU g : Batcher G A) =
      BatchHasher.max_batch_size g := rfl

/-- The dispatcher's `max_batch_size` on the `CPU` variant forwards. -/
@[simp]
theorem Batcher.max_batch_size_CPU {G : Type} {A : Nat} [BatchHasher A G]
    (c : SimplePoseidonBatchHasher A) :
    BatchHasher.max_batch_size (Batcher.CPU c : Batcher G A) =
      BatchHasher.max_batch_size c := rfl

/-- On a non-macOS build, a completed `hash` call leaves the dispatcher
state unchanged (the spec-modelled backends are purely functional and the
dispatcher re-wraps the returned backend in the same variant). -/
theorem Batcher.hash_state_fixed_other {A : Nat}
    (b b2 : Batcher (GPUBatchHasher A) A) (p : List (Preimage A))
    (r : Except Error (List Fr)) :
    BatchHasher.hash b p = PanicOr.ok (r, b2) → b2 = b := by
  cases b with
  | GPU g =>
    by_cases hl : p.length > g.max_batch_size <;>
      simp [PanicOr.map, hl] <;> intro _ h <;> simp [h]
  | CPU c =>
    by_cases hl : p.length > c.max_batch_size <;>
      simp [PanicOr.map, hl] <;> intro _ h <;> simp [h]

/-- On the macOS build, a completed `hash` call leaves the dispatcher
state unchanged (the `GPU` variant holds the stub, whose `hash` never
completes; the `CPU` variant is purely functional). -/
theorem Batcher.hash_state_fixed_macos {A : Nat}
    (b b2 : Batcher (NoGPUBatchHasher A) A) (p : List (Preimage A))
    (r : Except Error (List Fr)) :
    BatchHasher.hash b p = PanicOr.ok (r, b2) → b2 = b := by
  cases b with
  | GPU g => simp [PanicOr.map]
  | CPU c =>
    by_cases hl : p.length > c.max_batch_size <;>
      simp [PanicOr.map, hl] <;> intro _ h <;> simp [h]

/-! ### Concrete objects used by witnesses -/

/-- A platform environment whose context acquisitions all succeed. -/
def env0 : ClEnv :=
  { default_futhark_context := Except.ok ⟨0⟩,
    futhark_context := fun _ => Except.ok ⟨0⟩ }

/-- A concrete external hash primitive at arity 2. -/
def H0 : Strength → Preimage 2 → Fr := fun _ _ => 0

/-- A concrete preimage of arity 2. -/
def pre0 : Preimage 2 := ⟨[0, 0], rfl⟩

/-- The software-backend dispatcher built by
`new_with_strength_other env0 H0 Standard CPU 4`. -/
def bCPU0 : Batcher (GPUBatchHasher 2) 2 :=
  Batcher.CPU { strength := Strength.Standard, max_batch_size := 4,
                hashOne := H0 Strength.Standard }

/-- The software-backend dispatcher built on macOS by
`new_with_strength_macos H0 Standard CPU 4`. -/
def bCPU0m : Batcher (NoGPUBatchHasher 2) 2 :=
  Batcher.CPU { strength := Strength.Standard, max_batch_size := 4,
                hashOne := H0 Strength.Standard }

/-- The accelerator-backend dispatcher built by
`new_with_strength_other env0 H0 Standard (CustomGPU 0) 4`. -/
def bGPU0 : Batcher (GPUBatchHasher 2) 2 :=
  Batcher.GPU { ctx := ⟨0⟩, strength := Strength.Standard,
                max_batch_size := 4, hashOne := H0 Strength.Standard }

/-! ### Claims -/

/-- C1: the claim states that requesting an accelerator backend (`GPU` or
`CustomGPU`) on a build where the accelerator is unavailable returns an
`UnsupportedBackend` error and never aborts the process.  The code does the
opposite: on the macOS build, for every strength, arity, selector payload
and max_batch_size, `new_with_strength` panics with
"GPU unimplemented on macos" instead of returning any `Except` value.
This theorem evaluates the code on that whole input family. -/
theorem C1_gpu_request_on_macos_panics {A : Nat} :
    ∀ (H : Strength → Preimage A → Fr) (strength : Strength)
      (m : Nat) (sel : GPUSelector),
      Batcher.new_with_strength_macos H strength BatcherType.GPU m =
        PanicOr.panicked "GPU unimplemented on macos" ∧
      Batcher.new_with_strength_macos H strength (BatcherType.CustomGPU sel) m =
        PanicOr.panicked "GPU unimplemented on macos" := by
  intro H strength m sel
  exact ⟨rfl, rfl⟩

/-- C2: the dispatcher's `hash` returns exactly what the owned backend's
`hash` returns on the same batch (the possibly-updated backend re-wrapped
in the same variant, result untouched), and the dispatcher's
`max_batch_size` returns exactly the owned backend's `max_batch_size`;
this holds for every backend payload type `G`, i.e. for both build
configurations, and there is no batching, retry, or transformation of
inputs, outputs, or errors. -/
theorem C2_dispatcher_forwards_verbatim {G : Type} {A : Nat}
    [BatchHasher A G] :
    (∀ (g : G) (p : List (Preimage A)),
      BatchHasher.hash (Batcher.GPU g : Batcher G A) p =
        (BatchHasher.hash g p).map (fun rg => (rg.1, Batcher.GPU rg.2))) ∧
    (∀ (c : SimplePoseidonBatchHasher A) (p : List (Preimage A)),
      BatchHasher.hash (Batcher.CPU c : Batcher G A) p =
        (BatchHasher.hash c p).map (fun rc => (rc.1, Batcher.CPU rc.2))) ∧
    (∀ (g : G),
      BatchHasher.max_batch_size (Batcher.GPU g : Batcher G A) =
        BatchHasher.max_batch_size g) ∧
    (∀ (c : SimplePoseidonBatchHasher A),
      BatchHasher.max_batch_size (Batcher.CPU c : Batcher G A) =
        BatchHasher.max_batch_size c) :=
  ⟨fun _ _ => rfl, fun _ _ => rfl, fun _ => rfl, fun _ => rfl⟩

/-- C8: `new` is exactly `new_with_strength` at `DEFAULT_STRENGTH`, on both
build configurations, for every selector and max_batch_size: same
constructed backend or same error or same panic. -/
theorem C8_new_is_new_with_default_strength {A : Nat} :
    (∀ (env : ClEnv) (H : Strength → Preimage A → Fr)
       (t : BatcherType) (m : Nat),
      Batcher.new_other env H t m =
        Batcher.new_with_strength_other env H DEFAULT_STRENGTH t m) ∧
    (∀ (H : Strength → Preimage A → Fr) (t : BatcherType) (m : Nat),
      Batcher.new_macos H t m =
        Batcher.new_with_strength_macos H DEFAULT_STRENGTH t m) :=
  ⟨fun _ _ _ _ => rfl, fun _ _ _ => rfl⟩

/-- C9: every operation of the unavailable-backend stub diverges: for every
stub value and every input batch, `NoGPUBatchHasher::hash` and
`NoGPUBatchHasher::max_batch_size` panic (`unimplemented!`) instead of
returning any value. -/
theorem C9_stub_operations_always_panic {A : Nat} :
    ∀ (b : NoGPUBatchHasher A) (p : List (Preimage A)),
      BatchHasher.hash b p = PanicOr.panicked "not implemented" ∧
      BatchHasher.max_batch_size b = PanicOr.panicked "not implemented" :=
  fun _ _ => ⟨rfl, rfl⟩

/-- C10: on the macOS (stub) build, whenever `new_with_strength` completes
with `Ok`, the dispatcher is the `CPU` variant wrapping a software engine;
consequently its `hash` and `max_batch_size` always complete rather than
reaching the stub's diverging operations. -/
theorem C10_macos_ok_construction_is_cpu {A : Nat}
    (H : Strength → Preimage A → Fr) (strength : Strength)
    (t : BatcherType) (m : Nat) (b : Batcher (NoGPUBatchHasher A) A)
    (hb : Batcher.new_with_strength_macos H strength t m =
      PanicOr.ok (Except.ok b)) :
    (∃ c, b = Batcher.CPU c) ∧
    (∀ p, (BatchHasher.hash b p).isOk = true) ∧
    (BatchHasher.max_batch_size b).isOk = true := by
  cases t with
  | GPU => exact absurd hb (by simp [Batcher.new_with_strength_macos])
  | CustomGPU sel => exact absurd hb (by simp [Batcher.new_with_strength_macos])
  | CPU =>
    simp [Batcher.new_with_strength_macos,
      SimplePoseidonBatchHasher.new_with_strength] at hb
    subst hb
    refine ⟨⟨_, rfl⟩, fun p => ?_, rfl⟩
    by_cases hl : p.length > m <;> simp [PanicOr.map, PanicOr.isOk, hl]

/-- C10 witness: constructing with `CPU`, strength `Standard`,
max_batch_size 4 on the macOS build succeeds and yields the `CPU`
variant. -/
theorem C10_macos_ok_construction_is_cpu_witness :
    Batcher.new_with_strength_macos H0 Strength.Standard BatcherType.CPU 4 =
      PanicOr.ok (Except.ok bCPU0m) ∧
    (∃ c, bCPU0m = Batcher.CPU c) :=
  ⟨rfl, (C10_macos_ok_construction_is_cpu H0 Strength.Standard
    BatcherType.CPU 4 bCPU0m rfl).1⟩

/-- C3 counterexample: the claim says a `CustomGPU`-constructed dispatcher's
`backend_type()` returns `CustomGPU` with its device selector.  It does not:
constructing with `CustomGPU 0` on a build whose context acquisition
succeeds yields a dispatcher whose `t()` is `GPU`, which differs from the
requested `CustomGPU 0`. -/
theorem C3_counterexample_custom_gpu_reports_gpu :
    (Batcher.new_with_strength_other env0 H0 Strength.Standard
        (BatcherType.CustomGPU ⟨0⟩) 4).map (fun r => r.map Batcher.t) =
      PanicOr.ok (Except.ok BatcherType.GPU) ∧
    BatcherType.GPU ≠ BatcherType.CustomGPU ⟨0⟩ :=
  ⟨rfl, by decide⟩

/-- C3 (amended): `backend_type()` returns `CPU` for a CPU-constructed
dispatcher and `GPU` for a GPU-constructed one, but a CustomGPU-constructed
dispatcher also reports `GPU` (the constructed variant does not retain the
device selector, so `backend_type` never returns `CustomGPU`); on the macOS
build a successful construction only ever reports `CPU`. -/
theorem C3_backend_type_reflects_built_variant {A : Nat} :
    (∀ (env : ClEnv) (H : Strength → Preimage A → Fr) (strength : Strength)
       (t : BatcherType) (m : Nat) (b : Batcher (GPUBatchHasher A) A),
      Batcher.new_with_strength_other env H strength t m =
        PanicOr.ok (Except.ok b) →
      b.t = (match t with
             | BatcherType.CPU => BatcherType.CPU
             | _ => BatcherType.GPU)) ∧
    (∀ (H : Strength → Preimage A → Fr) (strength : Strength)
       (t : BatcherType) (m : Nat) (b : Batcher (NoGPUBatchHasher A) A),
      Batcher.new_with_strength_macos H strength t m =
        PanicOr.ok (Except.ok b) →
      b.t = BatcherType.CPU ∧ t = BatcherType.CPU) := by
  constructor
  · intro env H strength t m b hb
    cases t with
    | GPU =>
      cases henv : env.default_futhark_context with
      | error e => simp [Batcher.new_with_strength_other, henv] at hb
      | ok ctx =>
        simp [Batcher.new_with_strength_other, henv,
          GPUBatchHasher.new_with_strength] at hb
        subst hb; rfl
    | CustomGPU sel =>
      cases henv : env.futhark_context sel with
      | error e => simp [Batcher.new_with_strength_other, henv] at hb
      | ok ctx =>
        simp [Batcher.new_with_strength_other, henv,
          GPUBatchHasher.new_with_strength] at hb
        subst hb; rfl
    | CPU =>
      simp [Batcher.new_with_strength_other,
        SimplePoseidonBatchHasher.new_with_strength] at hb
      subst hb; rfl
  · intro H strength t m b hb
    cases t with
    | GPU => simp [Batcher.new_with_strength_macos] at hb
    | CustomGPU sel => simp [Batcher.new_with_strength_macos] at hb
    | CPU =>
      simp [Batcher.new_with_strength_macos,
        SimplePoseidonBatchHasher.new_with_strength] at hb
      subst hb; exact ⟨rfl, rfl⟩

/-- C3 (amended) witness: constructing with `CustomGPU 0` in an environment
whose context acquisition succeeds yields a dispatcher reporting `GPU`. -/
theorem C3_backend_type_reflects_built_variant_witness :
    Batcher.new_with_strength_other env0 H0 Strength.Standard
        (BatcherType.CustomGPU ⟨0⟩) 4 = PanicOr.ok (Except.ok bGPU0) ∧
    bGPU0.t = BatcherType.GPU :=
  ⟨rfl, C3_backend_type_reflects_built_variant.1 env0 H0 Strength.Standard
    (BatcherType.CustomGPU ⟨0⟩) 4 bGPU0 rfl⟩

/-- C4: for every constructed dispatcher (either build: any dispatcher over
the real accelerator backend, and the software variant on the stub build)
and every batch strictly longer than the configured `max_batch_size`,
`hash` fails with `BatchTooLarge`; the check is made by the owned backend
(the dispatcher forwards the batch unmodified, cf. C2). -/
theorem C4_oversized_batch_fails_batch_too_large {A : Nat} :
    (∀ (b : Batcher (GPUBatchHasher A) A) (m : Nat) (p : List (Preimage A)),
      BatchHasher.max_batch_size b = PanicOr.ok m → p.length > m →
      BatchHasher.hash b p =
        PanicOr.ok (Except.error Error.BatchTooLarge, b)) ∧
    (∀ (c : SimplePoseidonBatchHasher A) (p : List (Preimage A)),
      p.length > c.max_batch_size →
      BatchHasher.hash (Batcher.CPU c : Batcher (NoGPUBatchHasher A) A) p =
        PanicOr.ok (Except.error Error.BatchTooLarge, Batcher.CPU c)) := by
  constructor
  · intro b m p hm hl
    cases b with
    | GPU g =>
      simp at hm
      subst hm
      simp [PanicOr.map, hl]
    | CPU c =>
      simp at hm
      subst hm
      simp [PanicOr.map, hl]
  · intro c p hl
    simp [PanicOr.map, hl]

/-- C4 witness: a software dispatcher capped at 4 rejects a batch of
length 5 with `BatchTooLarge`. -/
theorem C4_oversized_batch_fails_batch_too_large_witness :
    BatchHasher.max_batch_size bCPU0 = PanicOr.ok 4 ∧
    ([pre0, pre0, pre0, pre0, pre0] : List (Preimage 2)).length > 4 ∧
    BatchHasher.hash bCPU0 [pre0, pre0, pre0, pre0, pre0] =
      PanicOr.ok (Except.error Error.BatchTooLarge, bCPU0) :=
  ⟨rfl, by decide,
    C4_oversized_batch_fails_batch_too_large.1 bCPU0 4
      [pre0, pre0, pre0, pre0, pre0] rfl (by decide)⟩

/-- C5: for every constructed dispatcher and every batch of length at most
the configured `max_batch_size`, `hash` completes with `Ok` and returns one
field element per input preimage; in particular the empty batch yields the
empty sequence without error. -/
theorem C5_within_limit_hash_matches_length {A : Nat} :
    (∀ (b : Batcher (GPUBatchHasher A) A) (m : Nat) (p : List (Preimage A)),
      BatchHasher.max_batch_size b = PanicOr.ok m → p.length ≤ m →
      ∃ out : List Fr,
        BatchHasher.hash b p = PanicOr.ok (Except.ok out, b) ∧
        out.length = p.length) ∧
    (∀ (c : SimplePoseidonBatchHasher A) (p : List (Preimage A)),
      p.length ≤ c.max_batch_size →
      ∃ out : List Fr,
        BatchHasher.hash (Batcher.CPU c : Batcher (NoGPUBatchHasher A) A) p =
          PanicOr.ok (Except.ok out, Batcher.CPU c) ∧
        out.length = p.length) ∧
    (∀ (b : Batcher (GPUBatchHasher A) A),
      BatchHasher.hash b [] = PanicOr.ok (Except.ok [], b)) ∧
    (∀ (c : SimplePoseidonBatchHasher A),
      BatchHasher.hash (Batcher.CPU c : Batcher (NoGPUBatchHasher A) A) [] =
        PanicOr.ok (Except.ok [], Batcher.CPU c)) := by
  refine ⟨?_, ?_, ?_, ?_⟩
  · intro b m p hm hl
    cases b with
    | GPU g =>
      simp at hm
      subst hm
      exact ⟨p.map g.hashOne, by simp [PanicOr.map, Nat.not_lt.mpr hl], by simp⟩
    | CPU c =>
      simp at hm
      subst hm
      exact ⟨p.map c.hashOne, by simp [PanicOr.map, Nat.not_lt.mpr hl], by simp⟩
  · intro c p hl
    exact ⟨p.map c.hashOne, by simp [PanicOr.map, Nat.not_lt.mpr hl], by simp⟩
  · intro b
    cases b with
    | GPU g => simp [PanicOr.map]
    | CPU c => simp [PanicOr.map]
  · intro c
    simp [PanicOr.map]

/-- C5 witness: a software dispatcher capped at 4 hashes a batch of length
2 into a sequence of length 2. -/
theorem C5_within_limit_hash_matches_length_witness :
    BatchHasher.max_batch_size bCPU0 = PanicOr.ok 4 ∧
    ([pre0, pre0] : List (Preimage 2)).length ≤ 4 ∧
    ∃ out : List Fr,
      BatchHasher.hash bCPU0 [pre0, pre0] =
        PanicOr.ok (Except.ok out, bCPU0) ∧
      out.length = ([pre0, pre0] : List (Preimage 2)).length :=
  ⟨rfl, by decide,
    C5_within_limit_hash_matches_length.1 bCPU0 4 [pre0, pre0] rfl (by decide)⟩

/-- C6: on both build configurations, a positive `max_batch_size` supplied
to a successful construction is exactly what `max_batch_size()` reports,
and the report is constant over the dispatcher's lifetime: any completed
`hash` call leaves `max_batch_size()` unchanged. -/
theorem C6_max_batch_size_constant_equals_argument {A : Nat} :
    (∀ (env : ClEnv) (H : Strength → Preimage A → Fr) (strength : Strength)
       (t : BatcherType) (m : Nat) (b : Batcher (GPUBatchHasher A) A),
      0 < m →
      Batcher.new_with_strength_other env H strength t m =
        PanicOr.ok (Except.ok b) →
      BatchHasher.max_batch_size b = PanicOr.ok m) ∧
    (∀ (H : Strength → Preimage A → Fr) (strength : Strength)
       (t : BatcherType) (m : Nat) (b : Batcher (NoGPUBatchHasher A) A),
      0 < m →
      Batcher.new_with_strength_macos H strength t m =
        PanicOr.ok (Except.ok b) →
      BatchHasher.max_batch_size b = PanicOr.ok m) ∧
    (∀ (b b2 : Batcher (GPUBatchHasher A) A) (p : List (Preimage A))
       (r : Except Error (List Fr)),
      BatchHasher.hash b p = PanicOr.ok (r, b2) →
      BatchHasher.max_batch_size b2 = BatchHasher.max_batch_size b) ∧
    (∀ (b b2 : Batcher (NoGPUBatchHasher A) A) (p : List (Preimage A))
       (r : Except Error (List Fr)),
      BatchHasher.hash b p = PanicOr.ok (r, b2) →
      BatchHasher.max_batch_size b2 = BatchHasher.max_batch_size b) := by
  refine ⟨?_, ?_, ?_, ?_⟩
  · intro env H strength t m b hpos hb
    cases t with
    | GPU =>
      cases henv : env.default_futhark_context with
      | error e => simp [Batcher.new_with_strength_other, henv] at hb
      | ok ctx =>
        simp [Batcher.new_with_strength_other, henv,
          GPUBatchHasher.new_with_strength] at hb
        subst hb; simp
    | CustomGPU sel =>
      cases henv : env.futhark_context sel with
      | error e => simp [Batcher.new_with_strength_other, henv] at hb
      | ok ctx =>
        simp [Batcher.new_with_strength_other, henv,
          GPUBatchHasher.new_with_strength] at hb
        subst hb; simp
    | CPU =>
      simp [Batcher.new_with_strength_other,
        SimplePoseidonBatchHasher.new_with_strength] at hb
      subst hb; simp
  · intro H strength t m b hpos hb
    cases t with
    | GPU => simp [Batcher.new_with_strength_macos] at hb
    | CustomGPU sel => simp [Batcher.new_with_strength_macos] at hb
    | CPU =>
      simp [Batcher.new_with_strength_macos,
        SimplePoseidonBatchHasher.new_with_strength] at hb
      subst hb; simp
  · intro b b2 p r h
    rw [Batcher.hash_state_fixed_other b b2 p r h]
  · intro b b2 p r h
    rw [Batcher.hash_state_fixed_macos b b2 p r h]

/-- C6 witness: constructing with cap 4 (positive) on each build yields a
dispatcher reporting 4, and a completed `hash` call does not change the
report. -/
theorem C6_max_batch_size_constant_equals_argument_witness :
    (0 < 4 ∧
     Batcher.new_with_strength_other env0 H0 Strength.Standard
        BatcherType.CPU 4 = PanicOr.ok (Except.ok bCPU0) ∧
     BatchHasher.max_batch_size bCPU0 = PanicOr.ok 4) ∧
    (Batcher.new_with_strength_macos H0 Strength.Standard
        BatcherType.CPU 4 = PanicOr.ok (Except.ok bCPU0m) ∧
     BatchHasher.max_batch_size bCPU0m = PanicOr.ok 4) ∧
    (BatchHasher.hash bCPU0 [pre0] =
        PanicOr.ok (Except.ok [0], bCPU0) ∧
     BatchHasher.max_batch_size bCPU0 = BatchHasher.max_batch_size bCPU0) :=
  ⟨⟨by decide, rfl,
    C6_max_batch_size_constant_equals_argument.1 env0 H0 Strength.Standard
      BatcherType.CPU 4 bCPU0 (by decide) rfl⟩,
   ⟨rfl,
    C6_max_batch_size_constant_equals_argument.2.1 H0 Strength.Standard
      BatcherType.CPU 4 bCPU0m (by decide) rfl⟩,
   ⟨rfl,
    C6_max_batch_size_constant_equals_argument.2.2.1 bCPU0 bCPU0 [pre0]
      (Except.ok [0]) rfl⟩⟩

/-- C7: `hash` is deterministic: on either build configuration, two
successive completed `hash` calls with the same batch (the second made on
the state returned by the first) produce identical results. -/
theorem C7_hash_deterministic {A : Nat} :
    (∀ (b b1 b2 : Batcher (GPUBatchHasher A) A) (p : List (Preimage A))
       (r1 r2 : Except Error (List Fr)),
      BatchHasher.hash b p = PanicOr.ok (r1, b1) →
      BatchHasher.hash b1 p = PanicOr.ok (r2, b2) →
      r1 = r2) ∧
    (∀ (b b1 b2 : Batcher (NoGPUBatchHasher A) A) (p : List (Preimage A))
       (r1 r2 : Except Error (List Fr)),
      BatchHasher.hash b p = PanicOr.ok (r1, b1) →
      BatchHasher.hash b1 p = PanicOr.ok (r2, b2) →
      r1 = r2) := by
  constructor
  · intro b b1 b2 p r1 r2 h1 h2
    have hb1 : b1 = b := Batcher.hash_state_fixed_other b b1 p r1 h1
    subst hb1
    have h3 := h1.symm.trans h2
    injection h3 with h4
    injection h4 with hr hb
  · intro b b1 b2 p r1 r2 h1 h2
    have hb1 : b1 = b := Batcher.hash_state_fixed_macos b b1 p r1 h1
    subst hb1
    have h3 := h1.symm.trans h2
    injection h3 with h4
    injection h4 with hr hb

/-- C7 witness: hashing `[pre0]` twice on the software dispatcher capped at
4 yields the same result both times. -/
theorem C7_hash_deterministic_witness :
    BatchHasher.hash bCPU0 [pre0] = PanicOr.ok (Except.ok [0], bCPU0) ∧
    (Except.ok [0] : Except Error (List Fr)) = Except.ok [0] :=
  ⟨rfl,
    C7_hash_deterministic.1 bCPU0 bCPU0 bCPU0 [pre0]
      (Except.ok [0]) (Except.ok [0]) rfl rfl⟩
